import Mathlib

/-!
Shallow embedding of the Nanit Home Assistant integration
(custom_components/nanit), centred on the polling coordinator
(NanitCoordinator in custom_components/nanit/init), the config flow
(custom_components/nanit/config_flow.py) and the sensor entities
(custom_components/nanit/sensor.py).

Conventions of the embedding:
- Python dicts returned by the vendor API are modelled as structures whose
  optional fields mirror the keys the source reads with dict.get; keys read
  with square brackets (KeyError on absence) are required fields.
- Event timestamps (floats in the source) are modelled as Nat; the source
  only compares them for equality and defaults them to 0, so the carrier
  does not matter.
- Exceptions are modelled explicitly: the vendor client raises values of
  NanitError; NanitUnauthorizedError and plain NanitAPIError are both
  subclasses of NanitAPIError in the source, while timeouts and aiohttp
  client errors are not, which the predicate isNanitAPIError captures.
- Each network call an update cycle makes is recorded in a call trace, and
  each logger invocation is recorded as a pair of the format string and the
  interpolated arguments, so that claims about retry counts and log content
  can be stated.
-/

namespace Nanit

/-- Decidable equality for Except values, used to evaluate concrete runs. -/
instance {ε α : Type} [DecidableEq ε] [DecidableEq α] : DecidableEq (Except ε α) :=
  fun x y =>
    match x, y with
    | .error a, .error b =>
      if h : a = b then isTrue (congrArg Except.error h)
      else isFalse (fun hc => h (Except.error.inj hc))
    | .ok a, .ok b =>
      if h : a = b then isTrue (congrArg Except.ok h)
      else isFalse (fun hc => h (Except.ok.inj hc))
    | .error _, .ok _ => isFalse (fun hc => Except.noConfusion hc)
    | .ok _, .error _ => isFalse (fun hc => Except.noConfusion hc)

/-- Exceptions that can escape a vendor API call.  In the source,
NanitUnauthorizedError subclasses NanitAPIError; asyncio.TimeoutError and
aiohttp.ClientError (here: transport) are unrelated classes. -/
inductive NanitError
  | unauthorized
  | api
  | transport
  deriving DecidableEq, Repr

/-- Truth of isinstance(e, NanitAPIError): both the unauthorized subclass and
the base class match; transport errors do not. -/
def isNanitAPIError : NanitError → Bool
  | .unauthorized => true
  | .api => true
  | .transport => false

/-- Shape of one entry of the camera dict inside a baby entry of the
get_babies response; uid is read with square brackets, the rest with get. -/
structure CameraJson where
  uid : String
  hardware : Option String
  mode : Option String
  version : Option String
  deriving DecidableEq, Repr

/-- Shape of one baby entry of the get_babies response. -/
structure BabyJson where
  uid : String
  camera : CameraJson
  name : Option String
  deriving DecidableEq, Repr

/-- Shape of the get_latest_event response; both fields are read with get. -/
structure LatestEventJson where
  key : Option String
  time : Option Nat
  deriving DecidableEq, Repr

/-- Shape of the get_connection_status response; connected is read with get
and defaults to False. -/
structure ConnectionStatusJson where
  connected : Option Bool
  deriving DecidableEq, Repr

/-- Shape of the media_urls dict inside the get_stats_latest response. -/
structure MediaUrlsJson where
  thumbnail : Option String
  deriving DecidableEq, Repr

/-- Shape of the latest dict inside the get_stats_latest response. -/
structure LatestStatsJson where
  media_urls : Option MediaUrlsJson
  deriving DecidableEq, Repr

/-- Shape of the get_stats_latest response. -/
structure StatsJson where
  latest : Option LatestStatsJson
  deriving DecidableEq, Repr

/-- Camera dataclass of custom_components/nanit/init. -/
structure Camera where
  camera_uid : String
  hardware : String
  mode : String
  deriving DecidableEq, Repr

/-- LatestEvent dataclass of custom_components/nanit/init. -/
structure LatestEvent where
  key : String
  time : Nat
  deriving DecidableEq, Repr

/-- ConnectionStatus dataclass of custom_components/nanit/init: its only
declared field is connected. -/
structure ConnectionStatus where
  connected : Bool
  deriving DecidableEq, Repr

/-- DeviceInfo built in update_babies for each baby. -/
structure DeviceInfo where
  identifiers : String × String
  manufacturer : String
  name : String
  model : String
  serial_number : String
  hw_version : Option String
  sw_version : Option String
  deriving DecidableEq, Repr

/-- BabyMeta dataclass of custom_components/nanit/init. -/
structure BabyMeta where
  baby_uid : String
  camera : Camera
  name : String
  latest_event : LatestEvent
  connection_status : ConnectionStatus
  device_info : DeviceInfo
  thumbnail_url : Option String
  deriving DecidableEq, Repr

/-- NanitData dataclass: container for cached data from the Nanit API.  The
Python dict keyed by baby uid is represented as the list of key-value pairs
in insertion order; lookups are by dictGet below, where a later assignment
to the same key wins, as in a Python dict. -/
structure NanitData where
  babies : List (String × BabyMeta)
  deriving DecidableEq, Repr

/-- Lookup in the association-list representation of a Python dict: the
binding appended last takes precedence, matching repeated dict assignment. -/
def dictGet {β : Type} : List (String × β) → String → Option β
  | [], _ => none
  | p :: rest, k =>
    match dictGet rest k with
    | some v => some v
    | none => if p.1 = k then some p.2 else none

/-- Access and refresh token pair held by the NanitClient. -/
structure Tokens where
  access_token : String
  refresh_token : String
  deriving DecidableEq, Repr

/-- Network calls the coordinator makes during one update cycle. -/
inductive ApiCall
  | getBabies
  | getLatestEvent (uid : String)
  | getConnectionStatus (camera_uid : String)
  | getStatsLatest (uid : String)
  deriving DecidableEq, Repr

/-- Log record: the logger format string together with the interpolated
argument values, in order. -/
abbrev LogRecord := String × List String

/-- Behaviour of the vendor API during one update cycle: what each endpoint
returns or raises when called. -/
structure ApiEnv where
  getBabies : Except NanitError (List BabyJson)
  getLatestEvent : String → Except NanitError LatestEventJson
  getConnectionStatus : String → Except NanitError ConnectionStatusJson
  getStatsLatest : String → Except NanitError StatsJson

/-- Thumbnail extraction from a get_stats_latest response, following
stats.get with nested defaults to empty dicts. -/
def statsThumbOf (stats : StatsJson) : Option String :=
  match stats.latest with
  | none => none
  | some ls =>
    match ls.media_urls with
    | none => none
    | some mu => mu.thumbnail

/-- Previous BabyMeta for a uid: self.data.babies.get(baby_uid) when
self.data is set, else None. -/
def previousBabyOf (prev : Option NanitData) (uid : String) : Option BabyMeta :=
  match prev with
  | none => none
  | some d => dictGet d.babies uid

/-- Previous latest-event time for a uid: previous_baby.latest_event.time
when the baby was present in the previous snapshot, else None. -/
def previousEventTimeOf (prev : Option NanitData) (uid : String) : Option Nat :=
  match previousBabyOf prev uid with
  | none => none
  | some pb => some pb.latest_event.time

/-- BabyMeta assembled at the end of one loop iteration of update_babies. -/
def mkBabyMeta (baby : BabyJson) (le : LatestEventJson)
    (cs : ConnectionStatusJson) (thumbnail : Option String) : BabyMeta :=
  { baby_uid := baby.uid
    camera :=
      { camera_uid := baby.camera.uid
        hardware := baby.camera.hardware.getD "Unknown hardware"
        mode := baby.camera.mode.getD "Unknown mode" }
    name := baby.name.getD baby.uid
    latest_event := { key := le.key.getD "UNKNOWN", time := le.time.getD 0 }
    connection_status := { connected := cs.connected.getD false }
    device_info :=
      { identifiers := ("nanit", baby.uid)
        manufacturer := "Nanit"
        name := baby.name.getD baby.uid
        model := baby.camera.hardware.getD "Unknown hardware"
        serial_number := baby.camera.uid
        hw_version := baby.camera.hardware
        sw_version := baby.camera.version }
    thumbnail_url := thumbnail }

/-- One loop iteration of update_babies for one baby entry: fetch the latest
event and the connection status, then fetch the thumbnail only when the
latest-event time differs from the previous value; a NanitAPIError from the
stats fetch is caught and leaves the thumbnail as None, while a transport
error propagates and aborts the cycle. -/
def processBaby (prev : Option NanitData) (env : ApiEnv) (baby : BabyJson) :
    Except NanitError BabyMeta × List ApiCall × List LogRecord :=
  match env.getLatestEvent baby.uid with
  | .error e => (.error e, [.getLatestEvent baby.uid], [])
  | .ok le =>
    match env.getConnectionStatus baby.camera.uid with
    | .error e =>
      (.error e, [.getLatestEvent baby.uid, .getConnectionStatus baby.camera.uid], [])
    | .ok cs =>
      if previousEventTimeOf prev baby.uid ≠ some (le.time.getD 0) then
        match env.getStatsLatest baby.uid with
        | .ok stats =>
          (.ok (mkBabyMeta baby le cs (statsThumbOf stats)),
           [.getLatestEvent baby.uid, .getConnectionStatus baby.camera.uid,
            .getStatsLatest baby.uid],
           [("Latest event changed for baby %s, fetching new thumbnail", [baby.uid]),
            ("Thumbnail URL set to %s", [(statsThumbOf stats).getD "None"])])
        | .error e =>
          if isNanitAPIError e then
            (.ok (mkBabyMeta baby le cs none),
             [.getLatestEvent baby.uid, .getConnectionStatus baby.camera.uid,
              .getStatsLatest baby.uid],
             [("Latest event changed for baby %s, fetching new thumbnail", [baby.uid]),
              ("Failed to fetch stats/latest for baby %s", [baby.uid])])
          else
            (.error e,
             [.getLatestEvent baby.uid, .getConnectionStatus baby.camera.uid,
              .getStatsLatest baby.uid],
             [("Latest event changed for baby %s, fetching new thumbnail", [baby.uid])])
      else
        (.ok (mkBabyMeta baby le cs
              (match previousBabyOf prev baby.uid with
               | none => none
               | some pb => pb.thumbnail_url)),
         [.getLatestEvent baby.uid, .getConnectionStatus baby.camera.uid],
         [])

/-- Loop of update_babies over the fetched baby list.  An exception in any
iteration aborts the whole loop, as in Python; on success the insertion-order
list of dict entries is returned. -/
def processBabies (prev : Option NanitData) (env : ApiEnv) :
    List BabyJson →
    Except NanitError (List (String × BabyMeta)) × List ApiCall × List LogRecord
  | [] => (.ok [], [], [])
  | baby :: rest =>
    match processBaby prev env baby with
    | (.error e, c, g) => (.error e, c, g)
    | (.ok meta, c, g) =>
      match processBabies prev env rest with
      | (.error e, c2, g2) => (.error e, c ++ c2, g ++ g2)
      | (.ok entries, c2, g2) => (.ok ((baby.uid, meta) :: entries), c ++ c2, g ++ g2)

/-- Embedding of NanitCoordinator.update_babies: logs the client tokens
(the FIXME blocks in the source), fetches the device list, and builds a
fresh snapshot map from scratch.  The prev argument is self.data, the
snapshot of the previous cycle; client is the token pair held by the
NanitClient whose values the source logs. -/
def updateBabies (prev : Option NanitData) (client : Tokens) (env : ApiEnv) :
    Except NanitError NanitData × List ApiCall × List LogRecord :=
  let header : List LogRecord :=
    [("Refreshing data from Nanit API", []),
     ("Nanit access token: %s", [client.access_token]),
     ("Nanit refresh token: %s", [client.refresh_token])]
  match env.getBabies with
  | .error e => (.error e, [.getBabies], header)
  | .ok babies =>
    match processBabies prev env babies with
    | (.error e, c, g) => (.error e, .getBabies :: c, header ++ g)
    | (.ok entries, c, g) => (.ok ⟨entries⟩, .getBabies :: c, header ++ g)

/-- Behaviour of the backend across one full invocation of
async_update_data: the API behaviour seen by the first update_babies
attempt, the outcome of client.refresh_session, and the API behaviour seen
by the retried attempt after a token refresh. -/
structure UpdateEnv where
  first : ApiEnv
  refreshSession : Except NanitError Tokens
  second : ApiEnv

/-- Persisted config-entry data: the email plus the credential pair.  The
source updates the entry with a dict merge that replaces only the two token
keys. -/
structure EntryData where
  email : String
  access_token : String
  refresh_token : String
  deriving DecidableEq, Repr

/-- Outcome async_update_data surfaces to the host coordinator:
ConfigEntryAuthFailed (terminal, cancels future updates and starts reauth),
a re-raised NanitAPIError, or an uncaught transport error; the host treats
the latter two as transient. -/
inductive UpdateError
  | configEntryAuthFailed
  | apiError
  | transport
  deriving DecidableEq, Repr

/-- Transient outcomes are those the host retries on schedule; only
ConfigEntryAuthFailed is terminal. -/
def UpdateError.isTransient : UpdateError → Bool
  | .configEntryAuthFailed => false
  | .apiError => true
  | .transport => true

/-- Coordinator-level events of one async_update_data invocation, in
order: each update_babies invocation, each refresh_session call, and each
config-entry write. -/
inductive Event
  | updateAttempt
  | refreshSessionCall
  | entryUpdate (access_token refresh_token : String)
  deriving DecidableEq, Repr

/-- Outcome of the outer exception dispatch of async_update_data: a
NanitUnauthorizedError escaping the inner handler becomes
ConfigEntryAuthFailed, a NanitAPIError is logged and re-raised, and a
transport error propagates uncaught. -/
def dispatchOuter : NanitError → UpdateError
  | .unauthorized => .configEntryAuthFailed
  | .api => .apiError
  | .transport => .transport

/-- Log records emitted by the outer exception dispatch. -/
def outerLog : NanitError → List LogRecord
  | .api => [("Error fetching data from Nanit API: %s", ["NanitAPIError"])]
  | _ => []

/-- Full outcome of one async_update_data invocation. -/
structure UpdateOutcome where
  result : Except UpdateError NanitData
  entry : EntryData
  client : Tokens
  events : List Event
  logs : List LogRecord
  deriving Repr

/-- Embedding of NanitCoordinator.async_update_data: try update_babies;
on NanitUnauthorizedError refresh the session once, log the new tokens (the
FIXME block), write them into the config entry, and retry update_babies
exactly once; dispatch any escaping exception through the outer handlers.
On a successful refresh_session the client holds the returned pair (the
Session/Token Manager replaces its credentials wholesale), which the retried
update_babies then logs. -/
def asyncUpdateData (prev : Option NanitData) (entry : EntryData)
    (client : Tokens) (env : UpdateEnv) : UpdateOutcome :=
  match updateBabies prev client env.first with
  | (.ok d, _, g1) =>
    { result := .ok d, entry := entry, client := client,
      events := [.updateAttempt], logs := g1 }
  | (.error .unauthorized, _, g1) =>
    let g401 := g1 ++
      [("Got HTTP 401 Unauthorized from Nanit API, attempting to refresh token", [])]
    match env.refreshSession with
    | .error e =>
      { result := .error (dispatchOuter e), entry := entry, client := client,
        events := [.updateAttempt, .refreshSessionCall],
        logs := g401 ++ outerLog e }
    | .ok toks =>
      let entry2 : EntryData :=
        { entry with access_token := toks.access_token,
                     refresh_token := toks.refresh_token }
      let gTok := g401 ++
        [("New Nanit API tokens: access_token=%s, refresh_token=%s",
          [toks.access_token, toks.refresh_token]),
         ("Successfully refreshed Nanit API token, retrying update", [])]
      match updateBabies prev toks env.second with
      | (.ok d, _, g2) =>
        { result := .ok d, entry := entry2, client := toks,
          events := [.updateAttempt, .refreshSessionCall,
                     .entryUpdate toks.access_token toks.refresh_token,
                     .updateAttempt],
          logs := gTok ++ g2 }
      | (.error e, _, g2) =>
        { result := .error (dispatchOuter e), entry := entry2, client := toks,
          events := [.updateAttempt, .refreshSessionCall,
                     .entryUpdate toks.access_token toks.refresh_token,
                     .updateAttempt],
          logs := gTok ++ g2 ++ outerLog e }
  | (.error e, _, g1) =>
    { result := .error (dispatchOuter e), entry := entry, client := client,
      events := [.updateAttempt], logs := g1 ++ outerLog e }

/-- Coordinator state visible across cycles: the published snapshot
(self.data), the persisted config-entry data and the client tokens. -/
structure CoordState where
  data : Option NanitData
  entry : EntryData
  client : Tokens

/-- One full scheduled refresh cycle: run async_update_data and publish.
Publication follows the host DataUpdateCoordinator contract: when
async_update_data returns, self.data is replaced by the returned value;
when it raises, self.data is left as it was. -/
def coordinatorCycle (s : CoordState) (env : UpdateEnv) :
    CoordState × Except UpdateError NanitData :=
  let r := asyncUpdateData s.data s.entry s.client env
  match r.result with
  | .ok d => ({ data := some d, entry := r.entry, client := r.client }, .ok d)
  | .error e => ({ data := s.data, entry := r.entry, client := r.client }, .error e)

/-!
Model of the config flow (custom_components/nanit/config_flow.py).  The
methods start_login and complete_login are coroutine functions; the steps
async_step_user and async_step_reauth_confirm call start_login WITHOUT
awaiting it, so the call expression evaluates to a coroutine object, which
the steps then try to unpack as a pair.  A tiny fragment of Python dynamic
semantics is embedded to express this.
-/

/-- Python runtime values relevant to the config-flow steps. -/
inductive PyValue
  | coroutineObject (name : String)
  | pair (a b : PyValue)
  | strVal (s : String)
  | noneVal
  deriving DecidableEq, Repr

/-- Python runtime errors relevant here. -/
inductive PyError
  | typeError
  | attributeError
  deriving DecidableEq, Repr

/-- Tuple unpacking (a, b = x): succeeds only on a pair; a coroutine object
is not iterable, so unpacking it raises TypeError. -/
def unpackPair : PyValue → Except PyError (PyValue × PyValue)
  | .pair a b => .ok (a, b)
  | _ => .error .typeError

/-- Value of the expression self.start_login(email, password) in the steps:
start_login is declared async def, and the call is not awaited, so it
returns a coroutine object rather than the (mfa_token, errors) pair. -/
def startLoginCall (_email _password : String) : PyValue :=
  PyValue.coroutineObject "start_login"

/-- Form input of the initial login step. -/
structure LoginInput where
  email : String
  password : String
  deriving DecidableEq, Repr

/-- Result of one config-flow step. -/
inductive FlowResult
  | showForm (step_id : String)
  | createEntry (title : String)
  | raisedTypeError
  deriving DecidableEq, Repr

/-- Embedding of ConfigFlow.async_step_user: with no input, show the login
form; with input, evaluate the unawaited start_login call and unpack it as
a pair.  The ok branch is the continuation the source intends (reaching the
mfa form); it is unreachable because the unpacked value is always a
coroutine object. -/
def asyncStepUser (user_input : Option LoginInput) : FlowResult :=
  match user_input with
  | none => .showForm "user"
  | some input =>
    match unpackPair (startLoginCall input.email input.password) with
    | .error _ => .raisedTypeError
    | .ok _ => .showForm "mfa"

/-- Embedding of ConfigFlow.async_step_reauth_confirm: with no input, show
the reauth form; with a password, evaluate the same unawaited start_login
call and unpack it as a pair. -/
def asyncStepReauthConfirm (user_input : Option String) : FlowResult :=
  match user_input with
  | none => .showForm "reauth_confirm"
  | some pw =>
    match unpackPair (startLoginCall "stored-email" pw) with
    | .error _ => .raisedTypeError
    | .ok _ => .showForm "mfa"

/-!
Model of attribute access on the ConnectionStatus dataclass, for the
last-seen sensor (custom_components/nanit/sensor.py), which reads
baby_meta.connection_status.last_seen.
-/

/-- Python attribute values found on a ConnectionStatus instance. -/
inductive AttrValue
  | boolVal (b : Bool)
  | natVal (n : Nat)
  deriving DecidableEq, Repr

/-- Attribute lookup on a ConnectionStatus instance: the dataclass declares
exactly one field, connected, so every other name raises AttributeError
(modelled as none). -/
def ConnectionStatus.getattr (cs : ConnectionStatus) : String → Option AttrValue
  | "connected" => some (.boolVal cs.connected)
  | _ => none

/-- Native value computed by NanitLastSeenSensor at init and on update:
datetime.fromtimestamp(baby_meta.connection_status.last_seen, ...), which
first has to read the last_seen attribute. -/
def lastSeenSensorValue (meta : BabyMeta) : Except PyError AttrValue :=
  match meta.connection_status.getattr "last_seen" with
  | some v => .ok v
  | none => .error .attributeError

/-!
Lemma layer: inversion and trace lemmas about the update cycle, used by the
claim theorems below.
-/

/-- Keys present in the dict representation are exactly those dictGet
resolves. -/
theorem dictGet_isSome_iff {β : Type} (l : List (String × β)) (k : String) :
    (dictGet l k).isSome = true ↔ k ∈ l.map Prod.fst := by
  induction l with
  | nil => simp [dictGet]
  | cons p rest ih =>
    rcases h : dictGet rest k with _ | v
    · rw [h] at ih
      simp only [Option.isSome_none, Bool.false_eq_true, false_iff] at ih
      by_cases hk : p.1 = k
      · simp [dictGet, h, hk]
      · simp only [dictGet, h, List.map_cons, List.mem_cons]
        rw [if_neg hk]
        simp only [Option.isSome_none, Bool.false_eq_true, false_iff, not_or]
        exact ⟨fun hc => hk hc.symm, ih⟩
    · rw [h] at ih
      simp only [Option.isSome_some, true_iff] at ih
      simp [dictGet, h, ih]

/-- Lookup misses exactly the keys not present. -/
theorem dictGet_eq_none_of_not_mem {β : Type} (l : List (String × β)) (k : String)
    (h : k ∉ l.map Prod.fst) : dictGet l k = none := by
  rcases hg : dictGet l k with _ | v
  · rfl
  · exact absurd ((dictGet_isSome_iff l k).1 (by simp [hg])) h

/-- Every successful loop iteration resolves both per-device status calls. -/
theorem processBaby_ok_inv (prev : Option NanitData) (env : ApiEnv)
    (b : BabyJson) (meta : BabyMeta)
    (h : (processBaby prev env b).1 = .ok meta) :
    ∃ le, env.getLatestEvent b.uid = .ok le ∧
      ∃ cs, env.getConnectionStatus b.camera.uid = .ok cs ∧
        ((previousEventTimeOf prev b.uid ≠ some (le.time.getD 0) ∧
          ((∃ stats, env.getStatsLatest b.uid = .ok stats ∧
              meta = mkBabyMeta b le cs (statsThumbOf stats)) ∨
           (∃ e, env.getStatsLatest b.uid = .error e ∧ isNanitAPIError e = true ∧
              meta = mkBabyMeta b le cs none))) ∨
         (previousEventTimeOf prev b.uid = some (le.time.getD 0) ∧
          meta = mkBabyMeta b le cs
            (match previousBabyOf prev b.uid with
             | none => none
             | some pb => pb.thumbnail_url))) := by
  rcases hle : env.getLatestEvent b.uid with e | le
  · simp [processBaby, hle] at h
  · rcases hcs : env.getConnectionStatus b.camera.uid with e | cs
    · simp [processBaby, hle, hcs] at h
    · refine ⟨le, rfl, cs, rfl, ?_⟩
      by_cases hne : previousEventTimeOf prev b.uid ≠ some (le.time.getD 0)
      · left
        refine ⟨hne, ?_⟩
        rcases hst : env.getStatsLatest b.uid with e | stats
        · by_cases hapi : isNanitAPIError e
          · right
            simp only [processBaby, hle, hcs, hst] at h
            rw [if_pos hne, if_pos hapi] at h
            exact ⟨e, rfl, hapi, (Except.ok.inj h).symm⟩
          · simp only [processBaby, hle, hcs, hst] at h
            rw [if_pos hne, if_neg hapi] at h
            exact Except.noConfusion h
        · left
          simp only [processBaby, hle, hcs, hst] at h
          rw [if_pos hne] at h
          exact ⟨stats, rfl, (Except.ok.inj h).symm⟩
      · right
        rw [not_not] at hne
        refine ⟨hne, ?_⟩
        simp only [processBaby, hle, hcs] at h
        rw [if_neg (not_not_intro hne)] at h
        exact (Except.ok.inj h).symm

/-- Evaluation of one loop iteration when the latest-event time changed and
the stats fetch succeeds. -/
theorem processBaby_eq_changed_ok (prev : Option NanitData) (env : ApiEnv)
    (b : BabyJson) (le : LatestEventJson) (cs : ConnectionStatusJson)
    (stats : StatsJson)
    (hle : env.getLatestEvent b.uid = .ok le)
    (hcs : env.getConnectionStatus b.camera.uid = .ok cs)
    (hne : previousEventTimeOf prev b.uid ≠ some (le.time.getD 0))
    (hst : env.getStatsLatest b.uid = .ok stats) :
    processBaby prev env b =
      (.ok (mkBabyMeta b le cs (statsThumbOf stats)),
       [.getLatestEvent b.uid, .getConnectionStatus b.camera.uid,
        .getStatsLatest b.uid],
       [("Latest event changed for baby %s, fetching new thumbnail", [b.uid]),
        ("Thumbnail URL set to %s", [(statsThumbOf stats).getD "None"])]) := by
  simp only [processBaby, hle, hcs, hst]
  rw [if_pos hne]

/-- Evaluation of one loop iteration when the latest-event time changed and
the stats fetch raises a NanitAPIError: the error is swallowed and the
thumbnail becomes None. -/
theorem processBaby_eq_changed_err (prev : Option NanitData) (env : ApiEnv)
    (b : BabyJson) (le : LatestEventJson) (cs : ConnectionStatusJson)
    (e : NanitError)
    (hle : env.getLatestEvent b.uid = .ok le)
    (hcs : env.getConnectionStatus b.camera.uid = .ok cs)
    (hne : previousEventTimeOf prev b.uid ≠ some (le.time.getD 0))
    (hst : env.getStatsLatest b.uid = .error e)
    (hapi : isNanitAPIError e = true) :
    processBaby prev env b =
      (.ok (mkBabyMeta b le cs none),
       [.getLatestEvent b.uid, .getConnectionStatus b.camera.uid,
        .getStatsLatest b.uid],
       [("Latest event changed for baby %s, fetching new thumbnail", [b.uid]),
        ("Failed to fetch stats/latest for baby %s", [b.uid])]) := by
  simp only [processBaby, hle, hcs, hst]
  rw [if_pos hne, if_pos hapi]

/-- Evaluation of one loop iteration when the latest-event time is unchanged:
no stats call is made and the previous thumbnail is carried over. -/
theorem processBaby_eq_unchanged (prev : Option NanitData) (env : ApiEnv)
    (b : BabyJson) (le : LatestEventJson) (cs : ConnectionStatusJson)
    (hle : env.getLatestEvent b.uid = .ok le)
    (hcs : env.getConnectionStatus b.camera.uid = .ok cs)
    (heq : previousEventTimeOf prev b.uid = some (le.time.getD 0)) :
    processBaby prev env b =
      (.ok (mkBabyMeta b le cs
            (match previousBabyOf prev b.uid with
             | none => none
             | some pb => pb.thumbnail_url)),
       [.getLatestEvent b.uid, .getConnectionStatus b.camera.uid],
       []) := by
  simp only [processBaby, hle, hcs]
  rw [if_neg (not_not_intro heq)]

/-- Uid stored in a successfully built BabyMeta is the uid of the processed
baby entry. -/
theorem processBaby_ok_uid (prev : Option NanitData) (env : ApiEnv)
    (b : BabyJson) (meta : BabyMeta)
    (h : (processBaby prev env b).1 = .ok meta) : meta.baby_uid = b.uid := by
  rcases processBaby_ok_inv prev env b meta h with ⟨le, _, cs, _, hcase⟩
  rcases hcase with ⟨_, hm | hm⟩ | ⟨_, hm⟩
  · rcases hm with ⟨stats, _, hm⟩
    rw [hm]; rfl
  · rcases hm with ⟨e, _, _, hm⟩
    rw [hm]; rfl
  · rw [hm]; rfl

/-- One loop iteration records no stats call for a foreign uid. -/
theorem processBaby_stats_count_other (prev : Option NanitData) (env : ApiEnv)
    (b : BabyJson) (u : String) (hne : b.uid ≠ u) :
    ((processBaby prev env b).2.1).count (ApiCall.getStatsLatest u) = 0 := by
  unfold processBaby
  split
  · simp [List.count_cons]
  · split
    · simp [List.count_cons]
    · split
      · split
        · simp [List.count_cons, hne]
        · split
          · simp [List.count_cons, hne]
          · simp [List.count_cons, hne]
      · simp [List.count_cons]

/-- One loop iteration records exactly one stats call for its own uid when
the latest-event time changed, whatever the outcome of that call. -/
theorem processBaby_stats_count_changed (prev : Option NanitData)
    (env : ApiEnv) (b : BabyJson) (le : LatestEventJson)
    (cs : ConnectionStatusJson)
    (hle : env.getLatestEvent b.uid = .ok le)
    (hcs : env.getConnectionStatus b.camera.uid = .ok cs)
    (hne : previousEventTimeOf prev b.uid ≠ some (le.time.getD 0)) :
    ((processBaby prev env b).2.1).count (ApiCall.getStatsLatest b.uid) = 1 := by
  simp only [processBaby, hle, hcs]
  rw [if_pos hne]
  rcases hst : env.getStatsLatest b.uid with e | stats
  · by_cases hapi : isNanitAPIError e
    · simp [hapi, List.count_cons]
    · simp [hapi, List.count_cons]
  · simp [List.count_cons]

/-- One loop iteration records no stats call when the latest-event time is
unchanged. -/
theorem processBaby_stats_count_unchanged (prev : Option NanitData)
    (env : ApiEnv) (b : BabyJson) (le : LatestEventJson)
    (cs : ConnectionStatusJson)
    (hle : env.getLatestEvent b.uid = .ok le)
    (hcs : env.getConnectionStatus b.camera.uid = .ok cs)
    (heq : previousEventTimeOf prev b.uid = some (le.time.getD 0)) :
    ((processBaby prev env b).2.1).count (ApiCall.getStatsLatest b.uid) = 0 := by
  rw [processBaby_eq_unchanged prev env b le cs hle hcs heq]
  simp [List.count_cons]

/-- Keys of a successfully built snapshot, in order, are the uids of the
fetched baby list. -/
theorem processBabies_keys (prev : Option NanitData) (env : ApiEnv) :
    ∀ (l : List BabyJson) (entries : List (String × BabyMeta)),
      (processBabies prev env l).1 = .ok entries →
      entries.map Prod.fst = l.map BabyJson.uid := by
  intro l
  induction l with
  | nil =>
    intro entries h
    simp only [processBabies] at h
    rw [← Except.ok.inj h]
    rfl
  | cons b rest ih =>
    intro entries h
    rcases hpb : processBaby prev env b with ⟨r, c, g⟩
    rcases r with e | meta
    · simp [processBabies, hpb] at h
    · rcases hrest : processBabies prev env rest with ⟨r2, c2, g2⟩
      rcases r2 with e | entries2
      · simp [processBabies, hpb, hrest] at h
      · simp only [processBabies, hpb, hrest] at h
        rw [← Except.ok.inj h]
        simp only [List.map_cons, List.cons.injEq, true_and]
        exact ih entries2 (by rw [hrest])

/-- Every baby of the list is processed successfully when the loop as a
whole succeeds. -/
theorem processBabies_mem_ok (prev : Option NanitData) (env : ApiEnv) :
    ∀ (l : List BabyJson) (entries : List (String × BabyMeta)),
      (processBabies prev env l).1 = .ok entries →
      ∀ b ∈ l, ∃ meta, (processBaby prev env b).1 = .ok meta := by
  intro l
  induction l with
  | nil => intro entries _ b hb; exact absurd hb (List.not_mem_nil b)
  | cons hd rest ih =>
    intro entries h b hb
    rcases hpb : processBaby prev env hd with ⟨r, c, g⟩
    rcases r with e | meta
    · simp [processBabies, hpb] at h
    · rcases hrest : processBabies prev env rest with ⟨r2, c2, g2⟩
      rcases r2 with e | entries2
      · simp [processBabies, hpb, hrest] at h
      · rcases List.mem_cons.1 hb with hb | hb
        · exact ⟨meta, by rw [hb, hpb]⟩
        · exact ih entries2 (by rw [hrest]) b hb

/-- Lookup of a uid in a successfully built snapshot returns the BabyMeta
produced for the baby with that uid, provided the fetched uids are distinct. -/
theorem processBabies_lookup (prev : Option NanitData) (env : ApiEnv) :
    ∀ (l : List BabyJson) (entries : List (String × BabyMeta)),
      (processBabies prev env l).1 = .ok entries →
      (l.map BabyJson.uid).Nodup →
      ∀ b ∈ l, ∀ meta, (processBaby prev env b).1 = .ok meta →
        dictGet entries b.uid = some meta := by
  intro l
  induction l with
  | nil => intro entries _ _ b hb; exact absurd hb (List.not_mem_nil b)
  | cons hd rest ih =>
    intro entries h hnodup b hb meta hmeta
    rcases hpb : processBaby prev env hd with ⟨r, c, g⟩
    rcases r with e | meta0
    · simp [processBabies, hpb] at h
    · rcases hrest : processBabies prev env rest with ⟨r2, c2, g2⟩
      rcases r2 with e | entries2
      · simp [processBabies, hpb, hrest] at h
      · simp only [processBabies, hpb, hrest] at h
        rw [← Except.ok.inj h]
        simp only [List.map_cons, List.nodup_cons] at hnodup
        rcases List.mem_cons.1 hb with hb | hb
        · subst hb
          have hmeta0 : meta0 = meta := by
            rw [hpb] at hmeta
            exact Except.ok.inj hmeta
          have hnone : dictGet entries2 b.uid = none := by
            apply dictGet_eq_none_of_not_mem
            rw [processBabies_keys prev env rest entries2 (by rw [hrest])]
            exact hnodup.1
          simp [dictGet, hnone, hmeta0]
        · have := ih entries2 (by rw [hrest]) hnodup.2 b hb meta hmeta
          simp [dictGet, this]

/-- Every entry of a successfully built snapshot stores its own uid as key
and comes from a baby of the fetched list. -/
theorem processBabies_entry_inv (prev : Option NanitData) (env : ApiEnv) :
    ∀ (l : List BabyJson) (entries : List (String × BabyMeta)),
      (processBabies prev env l).1 = .ok entries →
      ∀ k meta, dictGet entries k = some meta → meta.baby_uid = k := by
  intro l
  induction l with
  | nil =>
    intro entries h k meta hk
    simp only [processBabies] at h
    rw [← Except.ok.inj h] at hk
    simp [dictGet] at hk
  | cons hd rest ih =>
    intro entries h k meta hk
    rcases hpb : processBaby prev env hd with ⟨r, c, g⟩
    rcases r with e | meta0
    · simp [processBabies, hpb] at h
    · rcases hrest : processBabies prev env rest with ⟨r2, c2, g2⟩
      rcases r2 with e | entries2
      · simp [processBabies, hpb, hrest] at h
      · simp only [processBabies, hpb, hrest] at h
        rw [← Except.ok.inj h] at hk
        simp only [dictGet] at hk
        rcases hg : dictGet entries2 k with _ | v
        · rw [hg] at hk
          simp only at hk
          by_cases hdk : hd.uid = k
          · rw [if_pos hdk] at hk
            have : meta0 = meta := Option.some.inj hk
            rw [← this, ← hdk]
            exact processBaby_ok_uid prev env hd meta0 (by rw [hpb])
          · rw [if_neg hdk] at hk
            exact Option.noConfusion hk
        · rw [hg] at hk
          have : v = meta := Option.some.inj hk
          rw [← this]
          exact ih entries2 (by rw [hrest]) k v hg

/-- Loop trace records no stats call for a uid owned by no baby of the
list, whether or not the loop succeeds. -/
theorem processBabies_stats_count_zero (prev : Option NanitData)
    (env : ApiEnv) (u : String) :
    ∀ (l : List BabyJson), (∀ b ∈ l, b.uid ≠ u) →
      ((processBabies prev env l).2.1).count (ApiCall.getStatsLatest u) = 0 := by
  intro l
  induction l with
  | nil => intro _; simp [processBabies]
  | cons hd rest ih =>
    intro hall
    have hhd : ((processBaby prev env hd).2.1).count (ApiCall.getStatsLatest u) = 0 :=
      processBaby_stats_count_other prev env hd u (hall hd (List.mem_cons_self hd rest))
    have hr : ((processBabies prev env rest).2.1).count (ApiCall.getStatsLatest u) = 0 :=
      ih (fun b hb => hall b (List.mem_cons_of_mem hd hb))
    rcases hpb : processBaby prev env hd with ⟨r, c, g⟩
    have hc : c.count (ApiCall.getStatsLatest u) = 0 := by rw [hpb] at hhd; exact hhd
    rcases r with e | meta
    · simp only [processBabies, hpb]
      exact hc
    · rcases hrest : processBabies prev env rest with ⟨r2, c2, g2⟩
      have hc2 : c2.count (ApiCall.getStatsLatest u) = 0 := by
        rw [hrest] at hr; exact hr
      rcases r2 with e | entries2 <;>
        simp only [processBabies, hpb, hrest] <;>
        rw [List.count_append, hc, hc2]

/-- Stats calls recorded for the uid of a fetched baby all come from the
loop iteration of that baby, provided the fetched uids are distinct. -/
theorem processBabies_stats_count (prev : Option NanitData) (env : ApiEnv) :
    ∀ (l : List BabyJson) (entries : List (String × BabyMeta)),
      (processBabies prev env l).1 = .ok entries →
      (l.map BabyJson.uid).Nodup →
      ∀ b ∈ l,
        ((processBabies prev env l).2.1).count (ApiCall.getStatsLatest b.uid) =
        ((processBaby prev env b).2.1).count (ApiCall.getStatsLatest b.uid) := by
  intro l
  induction l with
  | nil => intro entries _ _ b hb; exact absurd hb (List.not_mem_nil b)
  | cons hd rest ih =>
    intro entries h hnodup b hb
    simp only [List.map_cons, List.nodup_cons] at hnodup
    rcases hpb : processBaby prev env hd with ⟨r, c, g⟩
    rcases r with e | meta
    · simp [processBabies, hpb] at h
    · rcases hrest : processBabies prev env rest with ⟨r2, c2, g2⟩
      rcases r2 with e | entries2
      · simp [processBabies, hpb, hrest] at h
      · rcases List.mem_cons.1 hb with hb | hb
        · subst hb
          have hr : ((processBabies prev env rest).2.1).count
              (ApiCall.getStatsLatest b.uid) = 0 := by
            apply processBabies_stats_count_zero
            intro b2 hb2 hc
            exact hnodup.1 (hc ▸ List.mem_map_of_mem BabyJson.uid hb2)
          have hc2 : c2.count (ApiCall.getStatsLatest b.uid) = 0 := by
            rw [hrest] at hr; exact hr
          simp only [processBabies, hpb, hrest]
          rw [List.count_append, hc2, Nat.add_zero]
        · have hhd : ((processBaby prev env hd).2.1).count
              (ApiCall.getStatsLatest b.uid) = 0 := by
            apply processBaby_stats_count_other
            intro hc
            exact hnodup.1 (hc ▸ List.mem_map_of_mem BabyJson.uid hb)
          have hc1 : c.count (ApiCall.getStatsLatest b.uid) = 0 := by
            rw [hpb] at hhd; exact hhd
          have htail := ih entries2 (by rw [hrest]) hnodup.2 b hb
          have hc2 : c2.count (ApiCall.getStatsLatest b.uid) =
              ((processBaby prev env b).2.1).count (ApiCall.getStatsLatest b.uid) := by
            rw [hrest] at htail; exact htail
          simp only [processBabies, hpb, hrest]
          rw [List.count_append, hc1, hc2, Nat.zero_add]

/-- Inversion of a successful update_babies run: the device list was
fetched and the snapshot is exactly the freshly built entry list. -/
theorem updateBabies_ok_inv (prev : Option NanitData) (client : Tokens)
    (env : ApiEnv) (d : NanitData)
    (h : (updateBabies prev client env).1 = .ok d) :
    ∃ babies entries, env.getBabies = .ok babies ∧
      (processBabies prev env babies).1 = .ok entries ∧ d.babies = entries := by
  rcases hb : env.getBabies with e | babies
  · simp [updateBabies, hb] at h
  · rcases hpb : processBabies prev env babies with ⟨r, c, g⟩
    rcases r with e | entries
    · simp [updateBabies, hb, hpb] at h
    · refine ⟨babies, entries, rfl, by rw [hpb], ?_⟩
      simp only [updateBabies, hb, hpb] at h
      rw [← Except.ok.inj h]

/-- Call trace of update_babies: the device-list call followed by the loop
trace, whether or not the cycle succeeds. -/
theorem updateBabies_calls (prev : Option NanitData) (client : Tokens)
    (env : ApiEnv) (babies : List BabyJson)
    (hb : env.getBabies = .ok babies) :
    (updateBabies prev client env).2.1 =
      .getBabies :: (processBabies prev env babies).2.1 := by
  rcases hpb : processBabies prev env babies with ⟨r, c, g⟩
  rcases r with e | entries <;> simp [updateBabies, hb, hpb]

/-- Thumbnail reference produced by the stats fetch of one cycle: the
extracted media URL on success, None when the call raised. -/
def fetchedThumbOf (env : ApiEnv) (uid : String) : Option String :=
  match env.getStatsLatest uid with
  | .ok stats => statsThumbOf stats
  | .error _ => none

/-- Resolution of a previous latest-event time into the previous BabyMeta
it came from. -/
theorem previousEventTimeOf_some (prev : Option NanitData) (uid : String)
    (t : Nat) (h : previousEventTimeOf prev uid = some t) :
    ∃ pb, previousBabyOf prev uid = some pb ∧ pb.latest_event.time = t := by
  unfold previousEventTimeOf at h
  rcases hpb : previousBabyOf prev uid with _ | pb
  · rw [hpb] at h
    exact Option.noConfusion h
  · rw [hpb] at h
    exact ⟨pb, rfl, Option.some.inj h⟩

/-- One loop iteration succeeds as soon as both per-device status calls
succeed and the stats endpoint does not raise a transport error. -/
theorem processBaby_ok_of (prev : Option NanitData) (env : ApiEnv)
    (b : BabyJson)
    (hle2 : ∃ le, env.getLatestEvent b.uid = .ok le)
    (hcs2 : ∃ cs, env.getConnectionStatus b.camera.uid = .ok cs)
    (hst : env.getStatsLatest b.uid ≠ .error .transport) :
    ∃ meta, (processBaby prev env b).1 = .ok meta := by
  obtain ⟨le, hle⟩ := hle2
  obtain ⟨cs, hcs⟩ := hcs2
  by_cases hne : previousEventTimeOf prev b.uid ≠ some (le.time.getD 0)
  · rcases hst2 : env.getStatsLatest b.uid with e | stats
    · have hapi : isNanitAPIError e = true := by
        cases e
        · rfl
        · rfl
        · exact absurd hst2 hst
      exact ⟨mkBabyMeta b le cs none,
        by rw [processBaby_eq_changed_err prev env b le cs e hle hcs hne hst2 hapi]⟩
    · exact ⟨mkBabyMeta b le cs (statsThumbOf stats),
        by rw [processBaby_eq_changed_ok prev env b le cs stats hle hcs hne hst2]⟩
  · rw [not_not] at hne
    exact ⟨_, by rw [processBaby_eq_unchanged prev env b le cs hle hcs hne]⟩

/-- Loop over the baby list succeeds as soon as every iteration succeeds. -/
theorem processBabies_ok_of_all (prev : Option NanitData) (env : ApiEnv) :
    ∀ (l : List BabyJson),
      (∀ b ∈ l, ∃ meta, (processBaby prev env b).1 = .ok meta) →
      ∃ entries, (processBabies prev env l).1 = .ok entries := by
  intro l
  induction l with
  | nil => intro _; exact ⟨[], rfl⟩
  | cons hd rest ih =>
    intro hall
    obtain ⟨meta, hmeta⟩ := hall hd (List.mem_cons_self hd rest)
    obtain ⟨entries2, hentries2⟩ :=
      ih (fun b hb => hall b (List.mem_cons_of_mem hd hb))
    rcases hpb : processBaby prev env hd with ⟨r, c, g⟩
    have hr : r = .ok meta := by rw [hpb] at hmeta; exact hmeta
    subst hr
    rcases hrest : processBabies prev env rest with ⟨r2, c2, g2⟩
    have hr2 : r2 = .ok entries2 := by rw [hrest] at hentries2; exact hentries2
    subst hr2
    exact ⟨(hd.uid, meta) :: entries2, by simp [processBabies, hpb, hrest]⟩

/-!
Concrete fixtures used by the witness theorems.
-/

/-- Camera entry of the sample device-list response. -/
def sampleCamera : CameraJson :=
  { uid := "cam-1", hardware := some "NanitPro", mode := some "day",
    version := some "1.0" }

/-- Baby entry of the sample device-list response. -/
def sampleBaby : BabyJson :=
  { uid := "baby-1", camera := sampleCamera, name := some "Alice" }

/-- Sample latest-event response. -/
def sampleEvent : LatestEventJson :=
  { key := some "FELL_ASLEEP", time := some 100 }

/-- Sample connection-status response. -/
def sampleConn : ConnectionStatusJson := { connected := some true }

/-- Sample stats response whose nested media URL is url-a. -/
def sampleStats : StatsJson :=
  { latest := some { media_urls := some { thumbnail := some "url-a" } } }

/-- Sample healthy API behaviour for one cycle. -/
def sampleEnv : ApiEnv :=
  { getBabies := .ok [sampleBaby]
    getLatestEvent := fun _ => .ok sampleEvent
    getConnectionStatus := fun _ => .ok sampleConn
    getStatsLatest := fun _ => .ok sampleStats }

/-- Sample client token pair. -/
def sampleTokens : Tokens := { access_token := "tokA", refresh_token := "tokR" }

/-- Sample persisted config-entry data. -/
def sampleEntry : EntryData :=
  { email := "user@example.com", access_token := "tokA", refresh_token := "tokR" }

/-- Snapshot the sample cycle builds from an empty previous state. -/
def sampleData : NanitData :=
  ⟨[("baby-1", mkBabyMeta sampleBaby sampleEvent sampleConn (some "url-a"))]⟩

/-!
Claim theorems.
-/

/-- C10: every snapshot map returned by a successful refresh has as key set
exactly the uids of the fetched device list, and each stored record holds
its own key as its id field. -/
theorem claim_C10_snapshot_keys (prev : Option NanitData) (client : Tokens)
    (env : ApiEnv) (babies : List BabyJson) (d : NanitData)
    (hb : env.getBabies = .ok babies)
    (hok : (updateBabies prev client env).1 = .ok d) :
    (∀ k, (dictGet d.babies k).isSome = true ↔ k ∈ babies.map BabyJson.uid) ∧
    (∀ k meta, dictGet d.babies k = some meta → meta.baby_uid = k) := by
  obtain ⟨babies2, entries, hb2, hpbs, hd⟩ := updateBabies_ok_inv prev client env d hok
  rw [hb] at hb2
  cases Except.ok.inj hb2
  constructor
  · intro k
    rw [hd, dictGet_isSome_iff, processBabies_keys prev env babies entries hpbs]
  · intro k meta hk
    rw [hd] at hk
    exact processBabies_entry_inv prev env babies entries hpbs k meta hk

/-- Witness for C10 at the sample cycle. -/
theorem claim_C10_witness :
    sampleEnv.getBabies = .ok [sampleBaby] ∧
    (updateBabies none sampleTokens sampleEnv).1 = .ok sampleData ∧
    ((dictGet sampleData.babies "baby-1").isSome = true ↔
      "baby-1" ∈ [sampleBaby].map BabyJson.uid) :=
  ⟨rfl, by decide,
   (claim_C10_snapshot_keys none sampleTokens sampleEnv [sampleBaby] sampleData
      rfl (by decide)).1 "baby-1"⟩

/-- C1: during a successful refresh, a thumbnail fetch for a listed device
happens exactly when the latest-event time differs from the previous value
for that device (a device absent from the previous snapshot differs by
definition); when it differs, exactly one stats call is attempted and its
outcome replaces the stored thumbnail; when it is equal, no stats call is
made and the previous thumbnail is carried over unchanged. -/
theorem claim_C1_conditional_thumbnail (prev : Option NanitData)
    (client : Tokens) (env : ApiEnv) (babies : List BabyJson) (d : NanitData)
    (b : BabyJson) (le : LatestEventJson)
    (hb : env.getBabies = .ok babies)
    (hnodup : (babies.map BabyJson.uid).Nodup)
    (hmem : b ∈ babies)
    (hle : env.getLatestEvent b.uid = .ok le)
    (hok : (updateBabies prev client env).1 = .ok d) :
    (previousEventTimeOf prev b.uid ≠ some (le.time.getD 0) →
      ((updateBabies prev client env).2.1).count (ApiCall.getStatsLatest b.uid) = 1 ∧
      ∃ meta, dictGet d.babies b.uid = some meta ∧
        meta.thumbnail_url = fetchedThumbOf env b.uid) ∧
    (previousEventTimeOf prev b.uid = some (le.time.getD 0) →
      ((updateBabies prev client env).2.1).count (ApiCall.getStatsLatest b.uid) = 0 ∧
      ∃ meta pb, dictGet d.babies b.uid = some meta ∧
        previousBabyOf prev b.uid = some pb ∧
        meta.thumbnail_url = pb.thumbnail_url) := by
  obtain ⟨babies2, entries, hb2, hpbs, hd⟩ := updateBabies_ok_inv prev client env d hok
  rw [hb] at hb2
  cases Except.ok.inj hb2
  obtain ⟨meta, hmeta⟩ := processBabies_mem_ok prev env babies entries hpbs b hmem
  have hlook : dictGet entries b.uid = some meta :=
    processBabies_lookup prev env babies entries hpbs hnodup b hmem meta hmeta
  obtain ⟨le2, hle2, cs, hcs, hcase⟩ := processBaby_ok_inv prev env b meta hmeta
  rw [hle] at hle2
  cases Except.ok.inj hle2
  constructor
  · intro hne
    constructor
    · have hcnt := processBabies_stats_count prev env babies entries hpbs hnodup b hmem
      have hown := processBaby_stats_count_changed prev env b le cs hle hcs hne
      have hall : ((processBabies prev env babies).2.1).count
          (ApiCall.getStatsLatest b.uid) = 1 := hcnt.trans hown
      rw [updateBabies_calls prev client env babies hb]
      simp [List.count_cons, hall]
    · refine ⟨meta, by rw [hd]; exact hlook, ?_⟩
      rcases hcase with ⟨_, hm | hm⟩ | ⟨heqt, _⟩
      · rcases hm with ⟨stats, hst, hmeq⟩
        rw [hmeq]
        unfold fetchedThumbOf
        rw [hst]
        rfl
      · rcases hm with ⟨e, hst, _, hmeq⟩
        rw [hmeq]
        unfold fetchedThumbOf
        rw [hst]
        rfl
      · exact absurd heqt hne
  · intro heqt
    rcases hcase with ⟨hne, _⟩ | ⟨_, hmeq⟩
    · exact absurd heqt hne
    · constructor
      · have hcnt := processBabies_stats_count prev env babies entries hpbs hnodup b hmem
        have hown := processBaby_stats_count_unchanged prev env b le cs hle hcs heqt
        have hall : ((processBabies prev env babies).2.1).count
            (ApiCall.getStatsLatest b.uid) = 0 := hcnt.trans hown
        rw [updateBabies_calls prev client env babies hb]
        simp [List.count_cons, hall]
      · obtain ⟨pb, hpb2, _⟩ := previousEventTimeOf_some prev b.uid _ heqt
        refine ⟨meta, pb, by rw [hd]; exact hlook, hpb2, ?_⟩
        rw [hmeq]
        simp [mkBabyMeta, hpb2]

/-- Witness for C1 at the sample cycle with empty previous snapshot: the
time differs, so one stats call happens and the fetched thumbnail is
stored. -/
theorem claim_C1_witness :
    sampleEnv.getBabies = .ok [sampleBaby] ∧
    ([sampleBaby].map BabyJson.uid).Nodup ∧
    sampleBaby ∈ [sampleBaby] ∧
    sampleEnv.getLatestEvent sampleBaby.uid = .ok sampleEvent ∧
    (updateBabies none sampleTokens sampleEnv).1 = .ok sampleData ∧
    (previousEventTimeOf none sampleBaby.uid ≠ some (sampleEvent.time.getD 0) →
      ((updateBabies none sampleTokens sampleEnv).2.1).count
        (ApiCall.getStatsLatest sampleBaby.uid) = 1 ∧
      ∃ meta, dictGet sampleData.babies sampleBaby.uid = some meta ∧
        meta.thumbnail_url = fetchedThumbOf sampleEnv sampleBaby.uid) :=
  ⟨rfl, by decide, by decide, rfl, by decide,
   (claim_C1_conditional_thumbnail none sampleTokens sampleEnv [sampleBaby]
      sampleData sampleBaby sampleEvent rfl (by decide) (by decide) rfl
      (by decide)).1⟩

/-- C9: when the latest-event time changed for a device but the single
stats fetch raises a NanitAPIError, the refresh cycle still succeeds and
the thumbnail stored for that device is None, discarding any previously
cached reference. -/
theorem claim_C9_thumbnail_failure_nonfatal (prev : Option NanitData)
    (client : Tokens) (env : ApiEnv) (babies : List BabyJson) (b : BabyJson)
    (le : LatestEventJson) (e : NanitError)
    (hb : env.getBabies = .ok babies)
    (hnodup : (babies.map BabyJson.uid).Nodup)
    (hmem : b ∈ babies)
    (hall : ∀ b2 ∈ babies,
      (∃ le2, env.getLatestEvent b2.uid = .ok le2) ∧
      (∃ cs2, env.getConnectionStatus b2.camera.uid = .ok cs2) ∧
      env.getStatsLatest b2.uid ≠ .error .transport)
    (hle : env.getLatestEvent b.uid = .ok le)
    (hne : previousEventTimeOf prev b.uid ≠ some (le.time.getD 0))
    (hfail : env.getStatsLatest b.uid = .error e)
    (hapi : isNanitAPIError e = true) :
    ∃ d, (updateBabies prev client env).1 = .ok d ∧
      ∃ meta, dictGet d.babies b.uid = some meta ∧
        meta.thumbnail_url = none := by
  obtain ⟨entries, hpbs⟩ := processBabies_ok_of_all prev env babies
    (fun b2 hb2 => processBaby_ok_of prev env b2 (hall b2 hb2).1 (hall b2 hb2).2.1
      (hall b2 hb2).2.2)
  obtain ⟨cs, hcs⟩ := (hall b hmem).2.1
  have hmeta : (processBaby prev env b).1 = .ok (mkBabyMeta b le cs none) := by
    rw [processBaby_eq_changed_err prev env b le cs e hle hcs hne hfail hapi]
  have hlook : dictGet entries b.uid = some (mkBabyMeta b le cs none) :=
    processBabies_lookup prev env babies entries hpbs hnodup b hmem _ hmeta
  refine ⟨⟨entries⟩, ?_, mkBabyMeta b le cs none, hlook, rfl⟩
  rcases hpt : processBabies prev env babies with ⟨r, c, g⟩
  have hr : r = .ok entries := by rw [hpt] at hpbs; exact hpbs
  subst hr
  simp [updateBabies, hb, hpt]

/-- Sample API behaviour where the stats endpoint raises a NanitAPIError. -/
def sampleEnvStatsFail : ApiEnv :=
  { getBabies := .ok [sampleBaby]
    getLatestEvent := fun _ => .ok sampleEvent
    getConnectionStatus := fun _ => .ok sampleConn
    getStatsLatest := fun _ => .error .api }

/-- Witness for C9 at a cycle whose stats fetch raises a NanitAPIError. -/
theorem claim_C9_witness :
    sampleEnvStatsFail.getBabies = .ok [sampleBaby] ∧
    sampleEnvStatsFail.getStatsLatest sampleBaby.uid = .error .api ∧
    (∃ d, (updateBabies none sampleTokens sampleEnvStatsFail).1 = .ok d ∧
      ∃ meta, dictGet d.babies sampleBaby.uid = some meta ∧
        meta.thumbnail_url = none) :=
  ⟨rfl, rfl,
   claim_C9_thumbnail_failure_nonfatal none sampleTokens sampleEnvStatsFail
     [sampleBaby] sampleBaby sampleEvent .api rfl (by decide) (by decide)
     (fun b2 hb2 => by
       have hb2e : b2 = sampleBaby := List.mem_singleton.mp hb2
       subst hb2e
       exact ⟨⟨sampleEvent, rfl⟩, ⟨sampleConn, rfl⟩, by decide⟩)
     rfl (by decide) rfl rfl⟩

/-- C4: a network or transport error of the first fetch attempt is surfaced
to the host as a transient error, never as the terminal authentication
error, and triggers neither a token refresh nor a retry: the cycle performs
exactly its one update attempt. -/
theorem claim_C4_transport_transient (prev : Option NanitData)
    (entry : EntryData) (client : Tokens) (env : UpdateEnv) (e : NanitError)
    (he : (updateBabies prev client env.first).1 = .error e)
    (hkind : e = .api ∨ e = .transport) :
    (asyncUpdateData prev entry client env).result = .error (dispatchOuter e) ∧
    (dispatchOuter e).isTransient = true ∧
    (asyncUpdateData prev entry client env).events = [.updateAttempt] := by
  rcases hu : updateBabies prev client env.first with ⟨r, c, g⟩
  have hr : r = .error e := by rw [hu] at he; exact he
  subst hr
  rcases hkind with hkind | hkind <;> subst hkind <;>
    simp [asyncUpdateData, hu, UpdateError.isTransient, dispatchOuter]

/-- Sample backend behaviour where the first fetch hits a transport error. -/
def sampleEnvTransport : UpdateEnv :=
  { first :=
      { getBabies := .error .transport
        getLatestEvent := fun _ => .ok sampleEvent
        getConnectionStatus := fun _ => .ok sampleConn
        getStatsLatest := fun _ => .ok sampleStats }
    refreshSession := .ok sampleTokens
    second := sampleEnv }

/-- Witness for C4 at a cycle whose device-list fetch times out. -/
theorem claim_C4_witness :
    (updateBabies none sampleTokens sampleEnvTransport.first).1 =
      .error .transport ∧
    (asyncUpdateData none sampleEntry sampleTokens sampleEnvTransport).result =
      .error (dispatchOuter .transport) ∧
    (asyncUpdateData none sampleEntry sampleTokens sampleEnvTransport).events =
      [.updateAttempt] :=
  ⟨by decide,
   (claim_C4_transport_transient none sampleEntry sampleTokens
      sampleEnvTransport .transport (by decide) (Or.inr rfl)).1,
   (claim_C4_transport_transient none sampleEntry sampleTokens
      sampleEnvTransport .transport (by decide) (Or.inr rfl)).2.2⟩

/-- Truth of a refresh outcome carrying fresh data. -/
def resultOk {ε α : Type} : Except ε α → Bool
  | .ok _ => true
  | .error _ => false

/-- Backend behaviour refuting C2 as stated: the first fetch gets a 401 and
the token refresh itself fails with a plain (non-authorization) API error. -/
def c2Env : UpdateEnv :=
  { first :=
      { getBabies := .error .unauthorized
        getLatestEvent := fun _ => .error .api
        getConnectionStatus := fun _ => .error .api
        getStatsLatest := fun _ => .error .api }
    refreshSession := .error .api
    second := sampleEnv }

/-- C2 counterexample: at this input the first fetch fails with a 401, yet
no retry of the fetch happens (one update attempt, not two) and the cycle
ends neither in the terminal authentication error nor with fresh data, so
the claimed dichotomy is false as stated. -/
theorem claim_C2_counterexample :
    (updateBabies none sampleTokens c2Env.first).1 = .error .unauthorized ∧
    ¬ ((asyncUpdateData none sampleEntry sampleTokens c2Env).events.count
         Event.updateAttempt = 2 ∧
       ((asyncUpdateData none sampleEntry sampleTokens c2Env).result =
          .error .configEntryAuthFailed ∨
        resultOk (asyncUpdateData none sampleEntry sampleTokens c2Env).result =
          true)) := by
  decide

/-- C2 (amended): if the first fetch attempt fails with an authorization
failure, exactly one token-refresh call is made; if the token refresh
succeeds, the fetch is retried exactly once and the cycle ends with the
retry outcome: fresh data on success, the terminal authentication error if
the retry fails with an authorization failure, and a transient error
otherwise; if the token refresh itself fails, no retry happens and the
cycle ends with the terminal authentication error exactly when that failure
is an authorization failure, else with the corresponding transient error. -/
theorem claim_C2_auth_refresh_retry (prev : Option NanitData)
    (entry : EntryData) (client : Tokens) (env : UpdateEnv)
    (h401 : (updateBabies prev client env.first).1 = .error .unauthorized) :
    (asyncUpdateData prev entry client env).events.count
      Event.refreshSessionCall = 1 ∧
    (∀ toks, env.refreshSession = .ok toks →
      (asyncUpdateData prev entry client env).events.count
        Event.updateAttempt = 2 ∧
      (∀ d, (updateBabies prev toks env.second).1 = .ok d →
        (asyncUpdateData prev entry client env).result = .ok d) ∧
      (∀ e, (updateBabies prev toks env.second).1 = .error e →
        (asyncUpdateData prev entry client env).result =
          .error (dispatchOuter e))) ∧
    (∀ e, env.refreshSession = .error e →
      (asyncUpdateData prev entry client env).result =
        .error (dispatchOuter e) ∧
      (asyncUpdateData prev entry client env).events.count
        Event.updateAttempt = 1) := by
  rcases hu : updateBabies prev client env.first with ⟨r1, c1, g1⟩
  have hr1 : r1 = .error .unauthorized := by rw [hu] at h401; exact h401
  subst hr1
  rcases hrs : env.refreshSession with e | toks
  · refine ⟨?_, ?_, ?_⟩
    · simp [asyncUpdateData, hu, hrs, List.count_cons]
    · intro toks htoks
      exact Except.noConfusion htoks
    · intro e2 he2
      cases Except.error.inj he2
      constructor
      · simp [asyncUpdateData, hu, hrs]
      · simp [asyncUpdateData, hu, hrs, List.count_cons]
  · rcases hu2 : updateBabies prev toks env.second with ⟨r2, c2, g2⟩
    refine ⟨?_, ?_, ?_⟩
    · rcases r2 with e2 | d2 <;>
        simp [asyncUpdateData, hu, hrs, hu2, List.count_cons]
    · intro toks2 htoks
      cases Except.ok.inj htoks
      refine ⟨?_, ?_, ?_⟩
      · rcases r2 with e2 | d2 <;>
          simp [asyncUpdateData, hu, hrs, hu2, List.count_cons]
      · intro d hd2
        have hr2 : r2 = .ok d := by rw [hu2] at hd2; exact hd2
        subst hr2
        simp [asyncUpdateData, hu, hrs, hu2]
      · intro e2 he2
        have hr2 : r2 = .error e2 := by rw [hu2] at he2; exact he2
        subst hr2
        simp [asyncUpdateData, hu, hrs, hu2]
    · intro e2 he2
      exact Except.noConfusion he2

/-- Backend behaviour for the amended C2 witness: 401 on the first attempt,
successful token refresh, successful retry. -/
def sampleEnvRetryOk : UpdateEnv :=
  { first :=
      { getBabies := .error .unauthorized
        getLatestEvent := fun _ => .error .api
        getConnectionStatus := fun _ => .error .api
        getStatsLatest := fun _ => .error .api }
    refreshSession := .ok { access_token := "tokA2", refresh_token := "tokR2" }
    second := sampleEnv }

/-- Witness for the amended C2: one refresh call, two update attempts, and
the retry result published. -/
theorem claim_C2_witness :
    (updateBabies none sampleTokens sampleEnvRetryOk.first).1 =
      .error .unauthorized ∧
    (asyncUpdateData none sampleEntry sampleTokens sampleEnvRetryOk).events.count
      Event.refreshSessionCall = 1 ∧
    (asyncUpdateData none sampleEntry sampleTokens sampleEnvRetryOk).events.count
      Event.updateAttempt = 2 :=
  ⟨by decide,
   (claim_C2_auth_refresh_retry none sampleEntry sampleTokens sampleEnvRetryOk
      (by decide)).1,
   ((claim_C2_auth_refresh_retry none sampleEntry sampleTokens sampleEnvRetryOk
      (by decide)).2.1 { access_token := "tokA2", refresh_token := "tokR2" }
      rfl).1⟩

/-- C5: when the token refresh succeeds after an authorization failure, the
returned token pair is merged into the persisted config-entry data, and
that write happens before the retried fetch attempt in the event order of
the cycle. -/
theorem claim_C5_tokens_persisted_before_retry (prev : Option NanitData)
    (entry : EntryData) (client : Tokens) (env : UpdateEnv) (toks : Tokens)
    (h401 : (updateBabies prev client env.first).1 = .error .unauthorized)
    (hrs : env.refreshSession = .ok toks) :
    (asyncUpdateData prev entry client env).entry =
      { entry with access_token := toks.access_token,
                   refresh_token := toks.refresh_token } ∧
    (asyncUpdateData prev entry client env).events =
      [.updateAttempt, .refreshSessionCall,
       .entryUpdate toks.access_token toks.refresh_token, .updateAttempt] := by
  rcases hu : updateBabies prev client env.first with ⟨r1, c1, g1⟩
  have hr1 : r1 = .error .unauthorized := by rw [hu] at h401; exact h401
  subst hr1
  rcases hu2 : updateBabies prev toks env.second with ⟨r2, c2, g2⟩
  rcases r2 with e2 | d2 <;> simp [asyncUpdateData, hu, hrs, hu2]

/-- Witness for C5 at the sample retry cycle. -/
theorem claim_C5_witness :
    (updateBabies none sampleTokens sampleEnvRetryOk.first).1 =
      .error .unauthorized ∧
    sampleEnvRetryOk.refreshSession =
      .ok { access_token := "tokA2", refresh_token := "tokR2" } ∧
    (asyncUpdateData none sampleEntry sampleTokens sampleEnvRetryOk).entry =
      { sampleEntry with access_token := "tokA2", refresh_token := "tokR2" } ∧
    (asyncUpdateData none sampleEntry sampleTokens sampleEnvRetryOk).events =
      [.updateAttempt, .refreshSessionCall, .entryUpdate "tokA2" "tokR2",
       .updateAttempt] :=
  ⟨by decide, rfl,
   (claim_C5_tokens_persisted_before_retry none sampleEntry sampleTokens
      sampleEnvRetryOk { access_token := "tokA2", refresh_token := "tokR2" }
      (by decide) rfl).1,
   (claim_C5_tokens_persisted_before_retry none sampleEntry sampleTokens
      sampleEnvRetryOk { access_token := "tokA2", refresh_token := "tokR2" }
      (by decide) rfl).2⟩

/-- C3: the refresh cycle never updates the published snapshot in place: on
any failure the published snapshot is exactly the one from before the
cycle, and on success the published snapshot is the wholesale freshly built
map of that cycle (the entry list folded up from the fetched device list),
not a field-by-field edit of the previous one. -/
theorem claim_C3_snapshot_atomic_replacement (s : CoordState) (env : UpdateEnv) :
    (∀ e, (asyncUpdateData s.data s.entry s.client env).result = .error e →
      (coordinatorCycle s env).1.data = s.data) ∧
    (∀ d, (asyncUpdateData s.data s.entry s.client env).result = .ok d →
      (coordinatorCycle s env).1.data = some d ∧
      ((∃ babies entries, env.first.getBabies = .ok babies ∧
          (processBabies s.data env.first babies).1 = .ok entries ∧
          d.babies = entries) ∨
       (∃ toks babies entries, env.refreshSession = .ok toks ∧
          env.second.getBabies = .ok babies ∧
          (processBabies s.data env.second babies).1 = .ok entries ∧
          d.babies = entries))) := by
  constructor
  · intro e he
    simp [coordinatorCycle, he]
  · intro d hd
    refine ⟨by simp [coordinatorCycle, hd], ?_⟩
    rcases hu : updateBabies s.data s.client env.first with ⟨r1, c1, g1⟩
    rcases r1 with e1 | d1
    · cases e1 with
      | unauthorized =>
        rcases hrs : env.refreshSession with e | toks
        · have hres : (asyncUpdateData s.data s.entry s.client env).result =
              .error (dispatchOuter e) := by
            simp [asyncUpdateData, hu, hrs]
          rw [hres] at hd
          exact Except.noConfusion hd
        · rcases hu2 : updateBabies s.data toks env.second with ⟨r2, c2, g2⟩
          rcases r2 with e2 | d2
          · have hres : (asyncUpdateData s.data s.entry s.client env).result =
                .error (dispatchOuter e2) := by
              simp [asyncUpdateData, hu, hrs, hu2]
            rw [hres] at hd
            exact Except.noConfusion hd
          · have hres : (asyncUpdateData s.data s.entry s.client env).result =
                .ok d2 := by
              simp [asyncUpdateData, hu, hrs, hu2]
            have hd2 : d2 = d := Except.ok.inj (hres.symm.trans hd)
            subst hd2
            right
            obtain ⟨babies, entries, hb, hpbs, hde⟩ :=
              updateBabies_ok_inv s.data toks env.second d2 (by rw [hu2])
            exact ⟨toks, babies, entries, rfl, hb, hpbs, hde⟩
      | api =>
        have hres : (asyncUpdateData s.data s.entry s.client env).result =
            .error .apiError := by
          simp [asyncUpdateData, hu, dispatchOuter]
        rw [hres] at hd
        exact Except.noConfusion hd
      | transport =>
        have hres : (asyncUpdateData s.data s.entry s.client env).result =
            .error .transport := by
          simp [asyncUpdateData, hu, dispatchOuter]
        rw [hres] at hd
        exact Except.noConfusion hd
    · have hres : (asyncUpdateData s.data s.entry s.client env).result =
          .ok d1 := by
        simp [asyncUpdateData, hu]
      have hd1 : d1 = d := Except.ok.inj (hres.symm.trans hd)
      subst hd1
      left
      obtain ⟨babies, entries, hb, hpbs, hde⟩ :=
        updateBabies_ok_inv s.data s.client env.first d1 (by rw [hu])
      exact ⟨babies, entries, hb, hpbs, hde⟩

/-- Coordinator state holding the sample snapshot. -/
def sampleState : CoordState :=
  { data := some sampleData, entry := sampleEntry, client := sampleTokens }

/-- Witness for C3 at a cycle that fails with a transport error: the
previously published snapshot is untouched. -/
theorem claim_C3_witness :
    (asyncUpdateData sampleState.data sampleState.entry sampleState.client
        sampleEnvTransport).result = .error .transport ∧
    (coordinatorCycle sampleState sampleEnvTransport).1.data =
      sampleState.data :=
  ⟨by decide,
   (claim_C3_snapshot_atomic_replacement sampleState sampleEnvTransport).1
     .transport (by decide)⟩

/-- C6 is contradicted by the code: the ConnectionStatus record carried by
every snapshot entry of a successful refresh exposes only the connected
field; the last-seen attribute the last-seen sensor reads does not exist,
so the sensor read raises AttributeError instead of finding a last-seen
timestamp. -/
theorem claim_C6_last_seen_field_missing (prev : Option NanitData)
    (client : Tokens) (env : ApiEnv) (d : NanitData)
    (_hok : (updateBabies prev client env).1 = .ok d)
    (k : String) (meta : BabyMeta)
    (_hm : dictGet d.babies k = some meta) :
    meta.connection_status.getattr "connected" =
      some (.boolVal meta.connection_status.connected) ∧
    meta.connection_status.getattr "last_seen" = none ∧
    lastSeenSensorValue meta = .error .attributeError := by
  exact ⟨rfl, rfl, rfl⟩

/-- Witness for C6 at the sample cycle. -/
theorem claim_C6_witness :
    (updateBabies none sampleTokens sampleEnv).1 = .ok sampleData ∧
    dictGet sampleData.babies "baby-1" =
      some (mkBabyMeta sampleBaby sampleEvent sampleConn (some "url-a")) ∧
    lastSeenSensorValue
      (mkBabyMeta sampleBaby sampleEvent sampleConn (some "url-a")) =
      .error .attributeError :=
  ⟨by decide, by decide,
   (claim_C6_last_seen_field_missing none sampleTokens sampleEnv sampleData
      (by decide) "baby-1"
      (mkBabyMeta sampleBaby sampleEvent sampleConn (some "url-a"))
      (by decide)).2.2⟩

/-- Backend behaviour for a healthy cycle preceded by a token refresh. -/
def sampleUpdateEnvOk : UpdateEnv :=
  { first := sampleEnv
    refreshSession := .ok { access_token := "tokA2", refresh_token := "tokR2" }
    second := sampleEnv }

/-- Client tokens differing from sampleTokens only in the access token. -/
def altTokens : Tokens := { access_token := "tokB", refresh_token := "tokR" }

/-- C7 is contradicted by the code: the refresh cycle logs the access and
refresh tokens verbatim (the FIXME blocks), and after a successful token
refresh logs the new pair as well, so the log output contains credentials
and two runs differing only in the access token produce different logs. -/
theorem claim_C7_credentials_in_logs :
    ("Nanit access token: %s", ["tokA"]) ∈
      (asyncUpdateData none sampleEntry sampleTokens sampleUpdateEnvOk).logs ∧
    ("Nanit refresh token: %s", ["tokR"]) ∈
      (asyncUpdateData none sampleEntry sampleTokens sampleUpdateEnvOk).logs ∧
    ("New Nanit API tokens: access_token=%s, refresh_token=%s",
      ["tokA2", "tokR2"]) ∈
      (asyncUpdateData none sampleEntry sampleTokens sampleEnvRetryOk).logs ∧
    (asyncUpdateData none sampleEntry sampleTokens sampleUpdateEnvOk).logs ≠
      (asyncUpdateData none sampleEntry altTokens sampleUpdateEnvOk).logs := by
  decide

/-- C8: for any submitted login form, the initial config-flow step calls
the coroutine method start_login without awaiting it and unpacks the
returned coroutine object as a pair, so the step raises TypeError and never
reaches the MFA form; the reauth-confirm step behaves the same way. -/
theorem claim_C8_unawaited_start_login (input : LoginInput) (pw : String) :
    asyncStepUser (some input) = .raisedTypeError ∧
    asyncStepUser (some input) ≠ .showForm "mfa" ∧
    asyncStepReauthConfirm (some pw) = .raisedTypeError ∧
    asyncStepReauthConfirm (some pw) ≠ .showForm "mfa" :=
  ⟨rfl, fun hc => FlowResult.noConfusion hc, rfl,
   fun hc => FlowResult.noConfusion hc⟩

/-- Witness for C8 at a concrete login form submission. -/
theorem claim_C8_witness :
    asyncStepUser (some { email := "user@example.com", password := "pw" }) =
      .raisedTypeError ∧
    asyncStepReauthConfirm (some "pw") = .raisedTypeError :=
  ⟨(claim_C8_unawaited_start_login
      { email := "user@example.com", password := "pw" } "pw").1,
   (claim_C8_unawaited_start_login
      { email := "user@example.com", password := "pw" } "pw").2.2.1⟩

end Nanit
